import Mathlib

/-!
# Verification of the PRCC consultation-form parsing pipeline

Shallow embedding of `src/form_parser.py` (class `FormParser`): text cleaning,
regex-based field extraction, checkbox extraction, notes extraction, date
normalization, mapping to the Smartsheet record schema and record validation.

Python strings are modelled as Lean `String`/`List Char`; `re.search` on the
concrete patterns of the source is modelled by a small backtracking matcher
over a regex AST transcribing each source pattern; `datetime.strptime` on the
six date formats of `parse_date` is modelled by a direct parser mirroring
CPython `_strptime` regexes (`%m` = `1[0-2]|0[1-9]|[1-9]`, `%d` =
`3[01]|[12]\d|0[1-9]|[1-9]`, `%y` = `\d\d`, `%Y` = `\d\d\d\d`) plus the
`datetime` range validation.
-/

namespace FormParser

/-- ASCII lower-casing on character codes, used to model `re.IGNORECASE`. -/
def lowerNat (n : Nat) : Nat :=
  if 65 ≤ n ∧ n ≤ 90 then n + 32 else n

/-- Python whitespace (`str.strip` / `\s` on ASCII): space, tab, LF, CR, VT, FF. -/
def isPyWs (c : Char) : Bool :=
  c == ' ' || c == '\t' || c == '\n' || c == '\r' || c == '\x0b' || c == '\x0c'

/-- Model of Python `str.strip()` on a character list. -/
def pyStripL (l : List Char) : List Char :=
  ((l.dropWhile isPyWs).reverse.dropWhile isPyWs).reverse

/-- Model of Python `str.strip()`. -/
def pyStrip (s : String) : String := ⟨pyStripL s.data⟩

/-- Helper for `re.sub(r'\s+', ' ', ...)`: the Boolean records whether the
previous character was whitespace (so a run collapses to one space). -/
def collapseAux : Bool → List Char → List Char
  | _, [] => []
  | prevWs, c :: rest =>
    if isPyWs c then
      if prevWs then collapseAux true rest else ' ' :: collapseAux true rest
    else c :: collapseAux false rest

/-- Model of Python `str.replace(a, b)` for single characters. -/
def replaceC (a b : Char) (l : List Char) : List Char :=
  l.map fun c => if c == a then b else c

/-- `FormParser.clean_text`: strip, collapse whitespace runs to single spaces,
then rewrite `|` to `I` and `0` to `O` (the source applies both replacements
to the whole value, whatever the field). -/
def clean_text (text : String) : String :=
  if text.data = [] then ""
  else ⟨replaceC '0' 'O' (replaceC '|' 'I' (collapseAux false (pyStripL text.data)))⟩

/-- Python `str.split()` (split on whitespace runs, no empty pieces):
accumulator holds the current word reversed. -/
def pySplitAux : List Char → List Char → List String
  | cur, [] => if cur = [] then [] else [⟨cur.reverse⟩]
  | cur, c :: rest =>
    if isPyWs c then
      if cur = [] then pySplitAux [] rest else ⟨cur.reverse⟩ :: pySplitAux [] rest
    else pySplitAux (c :: cur) rest

/-- Model of Python `str.split()` with no separator argument. -/
def pySplit (s : String) : List String := pySplitAux [] s.data

/-- Model of Python `' '.join(l)`. -/
def joinSpace (l : List String) : String := String.intercalate " " l

/-! ## Regex AST and backtracking matcher

Each constructor transcribes a construct appearing in the source's patterns.
Matching is case-insensitive throughout, as every `re.search` in the source
passes `re.IGNORECASE`. -/

/-- Regex abstract syntax; `cls neg singles ranges` is a character class,
`star greedy r` covers `r*` (greedy) and `r*?` (lazy), `grp` is the single
capturing group a source pattern may contain, `look` is `(?=...)`, `eol` is
`$` under `re.MULTILINE` and `endOfStr` is `\Z`. -/
inductive Re where
  | eps
  | ch (c : Char)
  | cls (neg : Bool) (singles : List Char) (ranges : List (Char × Char))
  | seq (a b : Re)
  | alt (a b : Re)
  | star (greedy : Bool) (r : Re)
  | grp (r : Re)
  | look (r : Re)
  | eol
  | endOfStr
  deriving Repr, DecidableEq

/-- Character-class test (case-insensitive on the singles, as under
`re.IGNORECASE`; the only ranges used are digit ranges). -/
def clsTest (neg : Bool) (singles : List Char) (ranges : List (Char × Char)) (c : Char) : Bool :=
  let hit := singles.any (fun a => lowerNat a.toNat == lowerNat c.toNat)
      || ranges.any (fun p => decide (p.1.toNat ≤ c.toNat) && decide (c.toNat ≤ p.2.toNat))
  if neg then !hit else hit

/-- Result of a match attempt: remaining input and group-1 capture. -/
abbrev MRes := List Char × Option (List Char)

/-- CPS backtracking matcher; `fuel` only bounds recursion depth (the source
patterns are all non-pathological, so any generous fuel yields Python's
semantics: leftmost position, alternatives in written order, greedy/lazy
quantifiers with backtracking). -/
def mtch : Nat → Re → List Char → Option (List Char) →
    (List Char → Option (List Char) → Option MRes) → Option MRes
  | 0, _, _, _, _ => none
  | fuel + 1, r, cs, cap, k =>
    match r with
    | .eps => k cs cap
    | .ch c =>
      match cs with
      | [] => none
      | c' :: rest => if lowerNat c.toNat == lowerNat c'.toNat then k rest cap else none
    | .cls neg singles ranges =>
      match cs with
      | [] => none
      | c' :: rest => if clsTest neg singles ranges c' then k rest cap else none
    | .seq a b => mtch fuel a cs cap fun cs' cap' => mtch fuel b cs' cap' k
    | .alt a b =>
      match mtch fuel a cs cap k with
      | some res => some res
      | none => mtch fuel b cs cap k
    | .star greedy r' =>
      if greedy then
        match mtch fuel r' cs cap (fun cs' cap' => mtch fuel (.star true r') cs' cap' k) with
        | some res => some res
        | none => k cs cap
      else
        match k cs cap with
        | some res => some res
        | none => mtch fuel r' cs cap fun cs' cap' => mtch fuel (.star false r') cs' cap' k
    | .grp r' =>
      mtch fuel r' cs cap fun cs' _ => k cs' (some (cs.take (cs.length - cs'.length)))
    | .look r' =>
      match mtch fuel r' cs cap (fun cs' cap' => some (cs', cap')) with
      | some _ => k cs cap
      | none => none
    | .eol =>
      match cs with
      | [] => k cs cap
      | c :: _ => if c == '\n' then k cs cap else none
    | .endOfStr =>
      match cs with
      | [] => k cs cap
      | _ :: _ => none

/-- Attempt to match `r` at the start of `cs`, returning the matched span
(group 0) and the group-1 capture. -/
def tryAt (r : Re) (cs : List Char) : Option MRes :=
  match mtch (10 * cs.length + 1000) r cs none (fun rest cap => some (rest, cap)) with
  | some (rest, cap) => some (cs.take (cs.length - rest.length), cap)
  | none => none

/-- `re.search`: try each position left to right, first success wins. -/
def searchL (r : Re) : List Char → Option MRes
  | [] => tryAt r []
  | c :: t =>
    match tryAt r (c :: t) with
    | some res => some res
    | none => searchL r t

/-- Whether a pattern contains a capturing group (Python `match.groups()`
being non-empty is a property of the compiled pattern). -/
def hasGroups : Re → Bool
  | .seq a b => hasGroups a || hasGroups b
  | .alt a b => hasGroups a || hasGroups b
  | .star _ r => hasGroups r
  | .grp _ => true
  | .look r => hasGroups r
  | _ => false

/-- `match.group(1) if match.groups() else match.group(0)` (a `None` group
would reach `clean_text` as `None` and come back as `""`, hence `getD []`). -/
def matchValue (p : Re) (m : MRes) : List Char :=
  if hasGroups p then m.2.getD [] else m.1

/-! ## Regex smart constructors used to transcribe the source patterns -/

/-- Sequence of several regexes. -/
def seqs (l : List Re) : Re := l.foldr Re.seq Re.eps

/-- Ordered alternation of several regexes. -/
def alts (l : List Re) : Re :=
  match l with
  | [] => Re.eps
  | [r] => r
  | r :: rest => Re.alt r (alts rest)

/-- Literal string (matched case-insensitively). -/
def lit (s : String) : Re := seqs (s.data.map Re.ch)

/-- `\s` -/
def wsC : Re := Re.cls false [' ', '\t', '\n', '\r', '\x0b', '\x0c'] []

/-- `[:\s]` -/
def colonWsC : Re := Re.cls false [':', ' ', '\t', '\n', '\r', '\x0b', '\x0c'] []

/-- `[\-\s]` -/
def dashWsC : Re := Re.cls false ['-', ' ', '\t', '\n', '\r', '\x0b', '\x0c'] []

/-- `[^\n\r]` -/
def notNlC : Re := Re.cls true ['\n', '\r'] []

/-- `\d` -/
def digitC : Re := Re.cls false [] [('0', '9')]

/-- `[/\-]` -/
def slashDashC : Re := Re.cls false ['/', '-'] []

/-- `.` under `re.DOTALL` (notes patterns only). -/
def dotAllC : Re := Re.cls true [] []

/-- `r+` (greedy) -/
def plusG (r : Re) : Re := Re.seq r (Re.star true r)

/-- `r*` (greedy) -/
def starG (r : Re) : Re := Re.star true r

/-- `r?` (greedy) -/
def optG (r : Re) : Re := Re.alt r Re.eps

/-- `r{n}` -/
def repC : Nat → Re → Re
  | 0, _ => Re.eps
  | n + 1, r => Re.seq r (repC n r)

/-- `\d{1,2}` -/
def digit12 : Re := Re.seq digitC (optG digitC)

/-- `\d{2,4}` -/
def digit24 : Re := seqs [digitC, digitC, optG digitC, optG digitC]

/-! ## The source's field pattern table (`self.field_patterns`) -/

/-- `Business\s+Name[:\s]+([^\n\r]+)` -/
def bnameP1 : Re := seqs [lit "Business", plusG wsC, lit "Name", plusG colonWsC, Re.grp (plusG notNlC)]

/-- `Business\s*Name[:\s]*([^\n\r]+)` -/
def bnameP2 : Re := seqs [lit "Business", starG wsC, lit "Name", starG colonWsC, Re.grp (plusG notNlC)]

/-- `DBA[:\s]+([^\n\r]+)` -/
def dbaP1 : Re := seqs [lit "DBA", plusG colonWsC, Re.grp (plusG notNlC)]

/-- `D\.?B\.?A\.?[:\s]*([^\n\r]+)` -/
def dbaP2 : Re := seqs [Re.ch 'D', optG (Re.ch '.'), Re.ch 'B', optG (Re.ch '.'), Re.ch 'A',
  optG (Re.ch '.'), starG colonWsC, Re.grp (plusG notNlC)]

/-- `Contact\s+Name[:\s]+([^\n\r]+)` -/
def contactP1 : Re := seqs [lit "Contact", plusG wsC, lit "Name", plusG colonWsC, Re.grp (plusG notNlC)]

/-- `Contact\s*Name[:\s]*([^\n\r]+)` -/
def contactP2 : Re := seqs [lit "Contact", starG wsC, lit "Name", starG colonWsC, Re.grp (plusG notNlC)]

/-- `Address[:\s]+([^\n\r]+)` -/
def addressP1 : Re := seqs [lit "Address", plusG colonWsC, Re.grp (plusG notNlC)]

/-- `Address[:\s]*([^\n\r]+)` -/
def addressP2 : Re := seqs [lit "Address", starG colonWsC, Re.grp (plusG notNlC)]

/-- `City[:\s]+([^\n\r]+)` -/
def cityP1 : Re := seqs [lit "City", plusG colonWsC, Re.grp (plusG notNlC)]

/-- `City[:\s]*([^\n\r]+)` -/
def cityP2 : Re := seqs [lit "City", starG colonWsC, Re.grp (plusG notNlC)]

/-- `Zip[:\s]+(\d{5})` -/
def zipP1 : Re := seqs [lit "Zip", plusG colonWsC, Re.grp (repC 5 digitC)]

/-- `ZIP[:\s]+(\d{5})` -/
def zipP2 : Re := seqs [lit "ZIP", plusG colonWsC, Re.grp (repC 5 digitC)]

/-- `Zip\s*Code[:\s]*(\d{5})` -/
def zipP3 : Re := seqs [lit "Zip", starG wsC, lit "Code", starG colonWsC, Re.grp (repC 5 digitC)]

/-- `Phone[:\s]+([^\n\r]+)` -/
def phoneP1 : Re := seqs [lit "Phone", plusG colonWsC, Re.grp (plusG notNlC)]

/-- `Phone[:\s]*([^\n\r]+)` -/
def phoneP2 : Re := seqs [lit "Phone", starG colonWsC, Re.grp (plusG notNlC)]

/-- `Email[:\s]+([^\n\r]+)` -/
def emailP1 : Re := seqs [lit "Email", plusG colonWsC, Re.grp (plusG notNlC)]

/-- `E[\-\s]*mail[:\s]*([^\n\r]+)` -/
def emailP2 : Re := seqs [Re.ch 'E', starG dashWsC, lit "mail", starG colonWsC, Re.grp (plusG notNlC)]

/-- `Business\s+Structure[:\s]+([^\n\r]+)` -/
def bstructP1 : Re := seqs [lit "Business", plusG wsC, lit "Structure", plusG colonWsC, Re.grp (plusG notNlC)]

/-- `LLC|S[\-\s]*CORP|Corporation|Partnership|Sole\s+Proprietorship` (no group) -/
def bstructP2 : Re := alts [lit "LLC", seqs [Re.ch 'S', starG dashWsC, lit "CORP"],
  lit "Corporation", lit "Partnership", seqs [lit "Sole", plusG wsC, lit "Proprietorship"]]

/-- `Years\s+in\s+business[:\s]+([^\n\r]+)` -/
def yearsP1 : Re := seqs [lit "Years", plusG wsC, lit "in", plusG wsC, lit "business",
  plusG colonWsC, Re.grp (plusG notNlC)]

/-- `(\d+\s*[-]\s*\d+|\d+)` -/
def yearsP2 : Re := Re.grp (Re.alt
  (seqs [plusG digitC, starG wsC, Re.cls false ['-'] [], starG wsC, plusG digitC])
  (plusG digitC))

/-- `Full\s+time\s+employees[:\s]+([^\n\r]+)` -/
def ftEmpP1 : Re := seqs [lit "Full", plusG wsC, lit "time", plusG wsC, lit "employees",
  plusG colonWsC, Re.grp (plusG notNlC)]

/-- `Full[\s\-]*time\s+employees[:\s]*(\d+)` -/
def ftEmpP2 : Re := seqs [lit "Full", starG dashWsC, lit "time", plusG wsC, lit "employees",
  starG colonWsC, Re.grp (plusG digitC)]

/-- `Session\s+Date[:\s]+([^\n\r]+)` -/
def sessionP1 : Re := seqs [lit "Session", plusG wsC, lit "Date", plusG colonWsC, Re.grp (plusG notNlC)]

/-- `(\d{1,2}[/\-]\d{1,2}[/\-]\d{2,4})` -/
def sessionP2 : Re := Re.grp (seqs [digit12, slashDashC, digit12, slashDashC, digit24])

/-- `Advisor[:\s]+([^\n\r]+)` -/
def advisorP1 : Re := seqs [lit "Advisor", plusG colonWsC, Re.grp (plusG notNlC)]

/-- `Advisor[:\s]*([^\n\r]+)` -/
def advisorP2 : Re := seqs [lit "Advisor", starG colonWsC, Re.grp (plusG notNlC)]

/-- `Contact\s+Time[:\s]+([^\n\r]+)` -/
def ctimeP1 : Re := seqs [lit "Contact", plusG wsC, lit "Time", plusG colonWsC, Re.grp (plusG notNlC)]

/-- `Contact\s*Time[:\s]*(\d+)` -/
def ctimeP2 : Re := seqs [lit "Contact", starG wsC, lit "Time", starG colonWsC, Re.grp (plusG digitC)]

/-- `Type\s+of\s+Consultation[:\s]+([^\n\r]+)` -/
def typeP1 : Re := seqs [lit "Type", plusG wsC, lit "of", plusG wsC, lit "Consultation",
  plusG colonWsC, Re.grp (plusG notNlC)]

/-- `operations|marketing|financing|legal|accounting` (no group) -/
def typeP2 : Re := alts [lit "operations", lit "marketing", lit "financing", lit "legal", lit "accounting"]

/-- `self.field_patterns`: ordered pattern lists keyed by field name;
`dict.get(field_name, [])` for an unknown name yields `[]`. -/
def field_patterns : String → List Re
  | "business_name" => [bnameP1, bnameP2]
  | "dba" => [dbaP1, dbaP2]
  | "contact_name" => [contactP1, contactP2]
  | "address" => [addressP1, addressP2]
  | "city" => [cityP1, cityP2]
  | "zip" => [zipP1, zipP2, zipP3]
  | "phone" => [phoneP1, phoneP2]
  | "email" => [emailP1, emailP2]
  | "business_structure" => [bstructP1, bstructP2]
  | "years_in_business" => [yearsP1, yearsP2]
  | "full_time_employees" => [ftEmpP1, ftEmpP2]
  | "session_date" => [sessionP1, sessionP2]
  | "advisor" => [advisorP1, advisorP2]
  | "contact_time" => [ctimeP1, ctimeP2]
  | "type_of_consultation" => [typeP1, typeP2]
  | _ => []

/-! ## `extract_field_value` -/

/-- The `for pattern in patterns` loop body: first matching pattern wins;
the returned value is `clean_text` of group 1 when the pattern has groups,
else of the whole matched span. -/
def extractGo (text : List Char) : List Re → Option String
  | [] => none
  | p :: ps =>
    match searchL p text with
    | some m => some (clean_text ⟨matchValue p m⟩)
    | none => extractGo text ps

/-- `FormParser.extract_field_value`. -/
def extract_field_value (text field : String) : Option String :=
  extractGo text.data (field_patterns field)

/-! ## `extract_checkbox_selections` -/

/-- The choice-group configuration dictionaries (`self.choice_patterns`);
the `patterns` entries are carried verbatim but, as in the source, are never
used by `extract_checkbox_selections`. -/
structure ChoiceConfig where
  patterns : List String
  options : List String
  deriving DecidableEq, Repr

/-- `business_stage` group. -/
def businessStageCfg : ChoiceConfig :=
  { patterns := ["Business\\s+Stage", "(Seed|Start\\s*up|Growth|Expansion|Maturity)"]
    options := ["Seed/Idea Phase", "Start up Phase", "Growth Phase", "Expansion Phase",
      "Maturity/Exit Phase"] }

/-- `business_presence` group. -/
def businessPresenceCfg : ChoiceConfig :=
  { patterns := ["Business\\s+Presence", "(Home\\s*based|Brick\\s*and\\s*Mortar|E[\\-\\s]*commerce)"]
    options := ["Home based", "Brick and Mortar", "E-commerce"] }

/-- `race` group. -/
def raceCfg : ChoiceConfig :=
  { patterns := ["Race", "(American\\s*Indian|Black|Native\\s*Hawaiian|Asian|White)"]
    options := ["American Indian / Alaska Native", "Black / African American",
      "Native Hawaiian / Pacific Islander", "Asian", "White"] }

/-- `ethnicity` group. -/
def ethnicityCfg : ChoiceConfig :=
  { patterns := ["Ethnicity", "(Hispanic|Latino|Other)"]
    options := ["Hispanic / Latino", "Other"] }

/-- `language` group. -/
def languageCfg : ChoiceConfig :=
  { patterns := ["Language\\s+of\\s+Consultation", "(English|Spanish)"]
    options := ["English", "Spanish"] }

/-- `veteran` group. -/
def veteranCfg : ChoiceConfig :=
  { patterns := ["Veteran", "(Yes|No)"], options := ["Yes", "No"] }

/-- `disabled` group. -/
def disabledCfg : ChoiceConfig :=
  { patterns := ["Disabled", "(Yes|No)"], options := ["Yes", "No"] }

/-- `self.choice_patterns` as a keyed lookup (`field_name not in
self.choice_patterns` becomes `none`). -/
def choice_patterns : String → Option ChoiceConfig
  | "business_stage" => some businessStageCfg
  | "business_presence" => some businessPresenceCfg
  | "race" => some raceCfg
  | "ethnicity" => some ethnicityCfg
  | "language" => some languageCfg
  | "veteran" => some veteranCfg
  | "disabled" => some disabledCfg
  | _ => none

/-- The mark-glyph class `[X✓✗⌧]` (case-insensitive, so `x` also counts). -/
def isMark (c : Char) : Bool :=
  lowerNat c.toNat == lowerNat 'X'.toNat || c == '✓' || c == '✗' || c == '⌧'

/-- Case-insensitive literal prefix test, returning the rest on success
(models matching `re.escape(option)` under `re.IGNORECASE`). -/
def ciStarts : List Char → List Char → Option (List Char)
  | [], t => some t
  | _ :: _, [] => none
  | p :: ps, c :: cs => if lowerNat p.toNat == lowerNat c.toNat then ciStarts ps cs else none

/-- The branch `[X✓✗⌧]\s*option` matching at the start of the list.  Since
every registered option starts with a non-whitespace character, the greedy
`\s*` is equivalent to dropping the maximal whitespace run. -/
def markThenOption (opt : List Char) : List Char → Bool
  | [] => false
  | c :: cs => isMark c && (ciStarts opt (cs.dropWhile isPyWs)).isSome

/-- The branch `option\s*[X✓✗⌧]` matching at the start of the list. -/
def optionThenMark (opt l : List Char) : Bool :=
  match ciStarts opt l with
  | some rest =>
    match rest.dropWhile isPyWs with
    | m :: _ => isMark m
    | [] => false
  | none => false

/-- `re.search` of `rf'[X✓✗⌧]\s*{re.escape(option)}|{re.escape(option)}\s*[X✓✗⌧]'`:
some position of the text starts one of the two branches. -/
def scanMarked (opt : List Char) : List Char → Bool
  | [] => false
  | c :: rest => markThenOption opt (c :: rest) || optionThenMark opt (c :: rest) || scanMarked opt rest

/-- Whether `option_pattern` (mark glyph immediately before or after the
option text, whitespace allowed between) matches somewhere in `text`. -/
def markedAdjacent (text opt : String) : Bool := scanMarked opt.data text.data

/-- `FormParser.extract_checkbox_selections`: iterate the registered options
in order, keeping those whose marked-option pattern occurs in the text. -/
def extract_checkbox_selections (text field : String) : List String :=
  match choice_patterns field with
  | none => []
  | some cfg => cfg.options.filter fun opt => markedAdjacent text opt

/-! ## `extract_consultation_notes` -/

/-- `Consultation\s+Notes[:\s]+(.*?)(?=\n\s*$|\Z)` (IGNORECASE|MULTILINE|DOTALL) -/
def notesP1 : Re := seqs [lit "Consultation", plusG wsC, lit "Notes", plusG colonWsC,
  Re.grp (Re.star false dotAllC), Re.look (Re.alt (seqs [Re.ch '\n', starG wsC, Re.eol]) Re.endOfStr)]

/-- `Notes[:\s]+(.*?)(?=\n\s*$|\Z)` -/
def notesP2 : Re := seqs [lit "Notes", plusG colonWsC,
  Re.grp (Re.star false dotAllC), Re.look (Re.alt (seqs [Re.ch '\n', starG wsC, Re.eol]) Re.endOfStr)]

/-- `(?:Met|Discussed|Client).*?(?=\n\s*$|\Z)` — note: no capturing group, so
`match.group(1)` on this pattern raises `IndexError('no such group')`. -/
def notesP3 : Re := seqs [alts [lit "Met", lit "Discussed", lit "Client"],
  Re.star false dotAllC, Re.look (Re.alt (seqs [Re.ch '\n', starG wsC, Re.eol]) Re.endOfStr)]

/-- `notes_patterns` in source order. -/
def notes_patterns : List Re := [notesP1, notesP2, notesP3]

/-- The notes loop: `notes = match.group(1).strip()` (raising on a pattern
with no group), keep only if longer than 20 characters, else next pattern;
no pattern left yields `""`. -/
def notesGo (text : List Char) : List Re → Except String String
  | [] => .ok ""
  | p :: ps =>
    match searchL p text with
    | none => notesGo text ps
    | some m =>
      if hasGroups p then
        let notes : String := ⟨pyStripL (m.2.getD [])⟩
        if notes.length > 20 then .ok (clean_text notes) else notesGo text ps
      else .error "no such group"

/-- `FormParser.extract_consultation_notes`; the `Except` error is the
`IndexError` that escapes to `parse_form`'s `except` clause. -/
def extract_consultation_notes (text : String) : Except String String :=
  notesGo text.data notes_patterns

/-! ## `parse_date`

`datetime.strptime` compiles `%m` to `(1[0-2]|0[1-9]|[1-9])`, `%d` to
`(3[01]|[12]\d|0[1-9]|[1-9])`, `%y` to `(\d\d)` and `%Y` to `(\d\d\d\d)`,
requires the whole string to be consumed, and `datetime(...)` then validates
the day against the month length and the year against 1..9999.  Because the
separator characters `/` and `-` are not digits, the regex backtracking
reduces to "take two digits if they form a value in range, else one". -/

/-- Numeric value of a digit character. -/
def digitVal (c : Char) : Nat := c.toNat - 48

/-- ASCII digit test. -/
def isDigitC (c : Char) : Bool := decide (48 ≤ c.toNat) && decide (c.toNat ≤ 57)

/-- Parse `%m` (`maxv = 12`) or `%d` (`maxv = 31`): a two-digit value in
`1..maxv`, else a single digit `1..9`. -/
def parseNum12 (maxv : Nat) : List Char → Option (Nat × List Char)
  | c1 :: c2 :: rest =>
    if isDigitC c1 && isDigitC c2 && decide (1 ≤ digitVal c1 * 10 + digitVal c2)
        && decide (digitVal c1 * 10 + digitVal c2 ≤ maxv) then
      some (digitVal c1 * 10 + digitVal c2, rest)
    else if isDigitC c1 && decide (1 ≤ digitVal c1) then
      some (digitVal c1, c2 :: rest)
    else none
  | [c1] => if isDigitC c1 && decide (1 ≤ digitVal c1) then some (digitVal c1, []) else none
  | [] => none

/-- Parse `%Y`: exactly four digits. -/
def parseYear4 : List Char → Option (Nat × List Char)
  | c1 :: c2 :: c3 :: c4 :: rest =>
    if isDigitC c1 && isDigitC c2 && isDigitC c3 && isDigitC c4 then
      some (((digitVal c1 * 10 + digitVal c2) * 10 + digitVal c3) * 10 + digitVal c4, rest)
    else none
  | _ => none

/-- Parse `%y`: exactly two digits; 0–68 maps to 2000–2068, 69–99 to 1969–1999
(CPython `_strptime`). -/
def parseYear2 : List Char → Option (Nat × List Char)
  | c1 :: c2 :: rest =>
    if isDigitC c1 && isDigitC c2 then
      some (if digitVal c1 * 10 + digitVal c2 ≤ 68 then 2000 + (digitVal c1 * 10 + digitVal c2)
        else 1900 + (digitVal c1 * 10 + digitVal c2), rest)
    else none
  | _ => none

/-- Gregorian leap year, as in `datetime`. -/
def isLeap (y : Nat) : Bool := y % 4 == 0 && (y % 100 != 0 || y % 400 == 0)

/-- Days in a month, as validated by `datetime`. -/
def daysInMonth (y m : Nat) : Nat :=
  if m = 2 then (if isLeap y then 29 else 28)
  else if m = 4 ∨ m = 6 ∨ m = 9 ∨ m = 11 then 30
  else 31

/-- `datetime(year, month, day)` constructor validation. -/
def dateValid (y m d : Nat) : Bool :=
  decide (1 ≤ y) && decide (y ≤ 9999) && decide (1 ≤ m) && decide (m ≤ 12)
    && decide (1 ≤ d) && decide (d ≤ daysInMonth y m)

/-- A parsed calendar date. -/
structure Date where
  year : Nat
  month : Nat
  day : Nat
  deriving DecidableEq, Repr

/-- One `strptime` format: field order, separator and year width. -/
structure FmtSpec where
  monthFirst : Bool
  sep : Char
  fourYear : Bool
  deriving DecidableEq, Repr

/-- The `date_formats` list: `%m/%d/%Y`, `%m/%d/%y`, `%m-%d-%Y`, `%m-%d-%y`,
`%d/%m/%Y`, `%d/%m/%y`. -/
def date_formats : List FmtSpec :=
  [⟨true, '/', true⟩, ⟨true, '/', false⟩, ⟨true, '-', true⟩, ⟨true, '-', false⟩,
    ⟨false, '/', true⟩, ⟨false, '/', false⟩]

/-- `datetime.strptime(s, fmt)` for one of the six formats: parse the three
fields separated by the literal separator, require full consumption, then
validate ranges. -/
def tryFormat (f : FmtSpec) (cs : List Char) : Option Date :=
  match parseNum12 (if f.monthFirst then 12 else 31) cs with
  | none => none
  | some (a, cs1) =>
    match cs1 with
    | [] => none
    | c :: cs2 =>
      if c = f.sep then
        match parseNum12 (if f.monthFirst then 31 else 12) cs2 with
        | none => none
        | some (b, cs3) =>
          match cs3 with
          | [] => none
          | c2 :: cs4 =>
            if c2 = f.sep then
              match (if f.fourYear then parseYear4 cs4 else parseYear2 cs4) with
              | some (y, []) =>
                let m := if f.monthFirst then a else b
                let d := if f.monthFirst then b else a
                if dateValid y m d then some ⟨y, m, d⟩ else none
              | _ => none
            else none
      else none

/-- The `for fmt in date_formats` loop: first format that parses wins. -/
def firstFmtParse (cs : List Char) : Option Date :=
  date_formats.findSome? fun f => tryFormat f cs

/-- A decimal digit as a character. -/
def digitChar (n : Nat) : Char := Char.ofNat (48 + n)

/-- Two-digit zero-padded field (`%m`, `%d`). -/
def pad2 (n : Nat) : List Char := [digitChar (n / 10 % 10), digitChar (n % 10)]

/-- Four-digit zero-padded year (`%Y`; all years reachable here are ≤ 9999). -/
def pad4 (n : Nat) : List Char :=
  [digitChar (n / 1000 % 10), digitChar (n / 100 % 10), digitChar (n / 10 % 10), digitChar (n % 10)]

/-- `parsed_date.strftime('%m/%d/%Y')`. -/
def formatMDY (d : Date) : String := ⟨pad2 d.month ++ '/' :: pad2 d.day ++ '/' :: pad4 d.year⟩

/-- `FormParser.parse_date`: empty in, empty out; otherwise first parsing
format wins and the date is reformatted canonically; if no format parses the
stripped original is returned. -/
def parse_date (s : String) : String :=
  if s.data = [] then ""
  else
    match firstFmtParse (pyStripL s.data) with
    | some dt => formatMDY dt
    | none => ⟨pyStripL s.data⟩

/-! ## Data model: `ExtractedFields`, `CanonicalRecord`, `ValidationResult` -/

/-- The incrementally-built `parsed_data` dictionary of `parse_form`: each
scalar field is present (`some`, necessarily non-empty) or absent. -/
structure ExtractedFields where
  business_name : Option String := none
  dba : Option String := none
  contact_name : Option String := none
  address : Option String := none
  city : Option String := none
  zip : Option String := none
  phone : Option String := none
  email : Option String := none
  business_structure : Option String := none
  years_in_business : Option String := none
  full_time_employees : Option String := none
  session_date : Option String := none
  advisor : Option String := none
  contact_time : Option String := none
  type_of_consultation : Option String := none
  business_stage : Option (List String) := none
  business_presence : Option (List String) := none
  race : Option (List String) := none
  ethnicity : Option (List String) := none
  language : Option (List String) := none
  veteran : Option (List String) := none
  disabled : Option (List String) := none
  consultation_notes : Option String := none
  deriving DecidableEq, Repr

/-- The empty `parsed_data` dictionary. -/
def emptyEF : ExtractedFields := {}

/-- The record returned by `map_to_smartsheet_format`: every schema key of
the Smartsheet form, always present. -/
structure CanonicalRecord where
  delegate_agency : String
  vendor_id : String
  program : String
  submitted_by : String
  reporting_month : String
  business_name : String
  business_owner_first_name : String
  business_owner_last_name : String
  business_owner_email : String
  business_street_address : String
  city : String
  state : String
  zip_code : String
  consultation_date : String
  consultation_length : String
  consultation_language : String
  business_stage : String
  business_structure : String
  business_presence : String
  years_in_business : String
  employee_count : String
  race : String
  ethnicity : String
  gender : String
  is_veteran : String
  is_disabled : String
  service_areas : List String
  business_summary : String
  referral_source : String
  deriving DecidableEq, Repr

/-- `business_stage_mapping.get(key, 'Growth Phase')`. -/
def businessStageMapping (s : String) : String :=
  if s = "Seed/Idea Phase" then "Seed/Idea Phase"
  else if s = "Start up Phase" then "Start-up Phase"
  else if s = "Growth Phase" then "Growth Phase"
  else if s = "Expansion Phase" then "Expansion Phase"
  else if s = "Maturity/Exit Phase" then "Maturity / Exit Phase"
  else "Growth Phase"

/-- `parsed_data.get(key, default)[0] if parsed_data.get(key) else fallback`:
first element of a present non-empty selection list, else the fallback (the
default list in `.get` is dead because the guard re-tests presence). -/
def firstSelectedD (v : Option (List String)) (fallback : String) : String :=
  match v with
  | some (x :: _) => x
  | _ => fallback

/-- `FormParser.map_to_smartsheet_format`. -/
def map_to_smartsheet_format (pd : ExtractedFields) : CanonicalRecord :=
  let contact_name := pd.contact_name.getD ""
  let name_parts := if contact_name = "" then [] else pySplit contact_name
  let first_name := match name_parts with | [] => "" | x :: _ => x
  let last_name := if name_parts.length > 1 then joinSpace name_parts.tail else ""
  let business_stage := pd.business_stage.getD []
  let mapped_stage := businessStageMapping (match business_stage with | [] => "" | x :: _ => x)
  { delegate_agency := "Puerto Rican Cultural Center (PRCC)"
    vendor_id := "1055031"
    program := "Place-based Business Specialist"
    submitted_by := "wesleyo@prcc-chgo.org"
    reporting_month := "August"
    business_name := pd.business_name.getD ""
    business_owner_first_name := first_name
    business_owner_last_name := last_name
    business_owner_email := pd.email.getD ""
    business_street_address := pd.address.getD ""
    city := pd.city.getD "Chicago"
    state := "IL"
    zip_code := pd.zip.getD ""
    consultation_date := parse_date (pd.session_date.getD "")
    consultation_length := pd.contact_time.getD "1"
    consultation_language := firstSelectedD pd.language "English"
    business_stage := mapped_stage
    business_structure := pd.business_structure.getD "Limited Liability Company"
    business_presence := firstSelectedD pd.business_presence "Brick & Mortar"
    years_in_business := pd.years_in_business.getD "2 to 5 years"
    employee_count := pd.full_time_employees.getD "2" ++ " employees"
    race := firstSelectedD pd.race "Prefer not to answer"
    ethnicity := firstSelectedD pd.ethnicity "Prefer not to answer"
    gender := "Prefer not to answer"
    is_veteran := firstSelectedD pd.veteran "No"
    is_disabled := firstSelectedD pd.disabled "No"
    service_areas := ["Business Planning & Strategy"]
    business_summary := pd.consultation_notes.getD ""
    referral_source := "Economic Development Nonprofit" }

/-- The dictionary returned by `validate_required_fields`. -/
structure ValidationResult where
  is_valid : Bool
  missing_fields : List String
  warnings : List String
  data : CanonicalRecord
  deriving DecidableEq, Repr

/-- Python `not smartsheet_data.get(field, '').strip()`. -/
def isBlankS (s : String) : Bool := pyStripL s.data == []

/-- `smartsheet_data.get(field, '')` for the field names the validator looks
up (all schema keys are present; unknown names default to `''`). -/
def requiredFieldGet (r : CanonicalRecord) (f : String) : String :=
  if f = "business_name" then r.business_name
  else if f = "business_owner_first_name" then r.business_owner_first_name
  else if f = "consultation_date" then r.consultation_date
  else ""

/-- `FormParser.validate_required_fields`. -/
def validate_required_fields (r : CanonicalRecord) : ValidationResult :=
  let required := ["business_name", "business_owner_first_name", "consultation_date"]
  let missing := required.filter fun f => isBlankS (requiredFieldGet r f)
  let defaulted := isBlankS r.consultation_length
  let data := if defaulted then { r with consultation_length := "1" } else r
  let warnings := if defaulted then ["Used default consultation length: 1 hour"] else []
  { is_valid := missing.length == 0
    missing_fields := missing
    warnings := warnings
    data := data }

/-! ## `parse_form` -/

/-- The OCR collaborator's result dictionary as consumed by `parse_form`
(`get('success', False)`, `get('raw_text', '')`, `get('confidence', 0)`). -/
structure OcrResult where
  success : Bool
  raw_text : Option String
  confidence : Option Nat
  deriving DecidableEq, Repr

/-- `parse_form`'s two result shapes: `{success: True, raw_parsed_data,
smartsheet_data, confidence}` or `{success: False, error, parsed_data: {}}`. -/
inductive ParseResult where
  | ok (raw_parsed_data : ExtractedFields) (smartsheet_data : CanonicalRecord) (confidence : Nat)
  | err (error : String) (parsed_data : ExtractedFields)
  deriving DecidableEq, Repr

/-- `if value: parsed_data[field_name] = value` — only truthy (non-empty)
values are stored. -/
def keepStr (v : Option String) : Option String :=
  match v with
  | some s => if s = "" then none else some s
  | none => none

/-- `if selections: parsed_data[field_name] = selections`. -/
def keepList (l : List String) : Option (List String) :=
  if l = [] then none else some l

/-- The two extraction loops of `parse_form` (scalar fields, then choice
groups), building `parsed_data`. -/
def extractAllFields (raw : String) : ExtractedFields :=
  { business_name := keepStr (extract_field_value raw "business_name")
    dba := keepStr (extract_field_value raw "dba")
    contact_name := keepStr (extract_field_value raw "contact_name")
    address := keepStr (extract_field_value raw "address")
    city := keepStr (extract_field_value raw "city")
    zip := keepStr (extract_field_value raw "zip")
    phone := keepStr (extract_field_value raw "phone")
    email := keepStr (extract_field_value raw "email")
    business_structure := keepStr (extract_field_value raw "business_structure")
    years_in_business := keepStr (extract_field_value raw "years_in_business")
    full_time_employees := keepStr (extract_field_value raw "full_time_employees")
    session_date := keepStr (extract_field_value raw "session_date")
    advisor := keepStr (extract_field_value raw "advisor")
    contact_time := keepStr (extract_field_value raw "contact_time")
    type_of_consultation := keepStr (extract_field_value raw "type_of_consultation")
    business_stage := keepList (extract_checkbox_selections raw "business_stage")
    business_presence := keepList (extract_checkbox_selections raw "business_presence")
    race := keepList (extract_checkbox_selections raw "race")
    ethnicity := keepList (extract_checkbox_selections raw "ethnicity")
    language := keepList (extract_checkbox_selections raw "language")
    veteran := keepList (extract_checkbox_selections raw "veteran")
    disabled := keepList (extract_checkbox_selections raw "disabled")
    consultation_notes := none }

/-- `FormParser.parse_form`: OCR failure short-circuits; the `try` body
extracts fields and choices (total), extracts notes (the one step that can
raise, via `group(1)` on a groupless pattern), maps, and returns the success
shape; an exception is caught and converted to the failure shape. -/
def parse_form (ocr : OcrResult) : ParseResult :=
  if ocr.success then
    let raw := ocr.raw_text.getD ""
    let pd := extractAllFields raw
    match extract_consultation_notes raw with
    | .error e => .err ("Parsing failed: " ++ e) emptyEF
    | .ok notes =>
      let pd := if notes = "" then pd else { pd with consultation_notes := some notes }
      .ok pd (map_to_smartsheet_format pd) (ocr.confidence.getD 0)
  else .err "OCR processing failed" emptyEF

/-- The smartsheet record of a successful parse. -/
def resultSmartsheet : ParseResult → Option CanonicalRecord
  | .ok _ sm _ => some sm
  | .err _ _ => none

/-! ## Concrete inputs used by witnesses and counterexamples -/

/-- The spec's §8 scenario text. -/
def c1Text : String := "Business Name: Acme Co\nZip: 60622\nSession Date: 07/08/2025"

/-- OCR result wrapping the scenario text, `success = true`, no marks. -/
def c1Ocr : OcrResult := { success := true, raw_text := some c1Text, confidence := none }

/-- The canonical record the pipeline produces for the scenario text. -/
def c1Record : Option CanonicalRecord := resultSmartsheet (parse_form c1Ocr)

/-- A fully-defaulted record with a blank consultation length. -/
def c4SampleRec : CanonicalRecord :=
  { map_to_smartsheet_format emptyEF with consultation_length := "" }

/-- Extracted fields holding only a contact name. -/
def c5SampleEF : ExtractedFields := { contact_name := some "Jane Q Public" }

/-! ## Helper lemmas -/

theorem not_mem_replaceC_self {a b : Char} (l : List Char) (h : ¬ b = a) :
    a ∉ replaceC a b l := by
  intro hmem
  rcases List.mem_map.mp hmem with ⟨c, _, hc⟩
  by_cases hca : c == a
  · simp only [hca, if_true] at hc
    exact h hc
  · simp only [hca, if_false] at hc
    subst hc
    simp at hca

theorem not_mem_replaceC {x a b : Char} (l : List Char) (hb : ¬ x = b) (hl : x ∉ l) :
    x ∉ replaceC a b l := by
  intro hmem
  rcases List.mem_map.mp hmem with ⟨c, hc, hcx⟩
  by_cases hca : c == a
  · simp only [hca, if_true] at hcx
    exact hb hcx.symm
  · simp only [hca, if_false] at hcx
    subst hcx
    exact hl hc

theorem clean_text_no_zero_no_pipe (s : String) :
    '0' ∉ (clean_text s).data ∧ '|' ∉ (clean_text s).data := by
  unfold clean_text
  by_cases h : s.data = []
  · simp [h]
  · rw [if_neg h]
    refine ⟨not_mem_replaceC_self _ (by decide), ?_⟩
    exact not_mem_replaceC _ (by decide) (not_mem_replaceC_self _ (by decide))

theorem extractGo_some_clean (text : List Char) (ps : List Re) (v : String)
    (h : extractGo text ps = some v) : ∃ w, v = clean_text w := by
  induction ps with
  | nil => simp [extractGo] at h
  | cons p ps ih =>
    unfold extractGo at h
    cases hs : searchL p text with
    | some m =>
      rw [hs] at h
      exact ⟨_, (Option.some.injEq _ _ ▸ h).symm⟩
    | none =>
      rw [hs] at h
      exact ih h

theorem notesGo_ok_clean (text : List Char) (ps : List Re) (v : String)
    (h : notesGo text ps = .ok v) : v = "" ∨ ∃ w, v = clean_text w := by
  induction ps with
  | nil =>
    simp [notesGo] at h
    exact Or.inl h.symm
  | cons p ps ih =>
    unfold notesGo at h
    cases hs : searchL p text with
    | some m =>
      rw [hs] at h
      dsimp only at h
      split at h
      · split at h
        · exact Or.inr ⟨_, (Except.ok.inj h).symm⟩
        · exact ih h
      · exact absurd h (by simp)
    | none =>
      rw [hs] at h
      dsimp only at h
      exact ih h

theorem extractGo_none_iff (text : List Char) (ps : List Re) :
    extractGo text ps = none ↔ ∀ p ∈ ps, searchL p text = none := by
  induction ps with
  | nil => simp [extractGo]
  | cons p ps ih =>
    unfold extractGo
    cases hs : searchL p text with
    | some m => simp [hs]
    | none => simp [hs, ih]

theorem extractGo_first (text : List Char) (ps₁ : List Re) (p : Re) (ps₂ : List Re)
    (h1 : ∀ q ∈ ps₁, searchL q text = none) (m : MRes) (hm : searchL p text = some m) :
    extractGo text (ps₁ ++ p :: ps₂) = some (clean_text ⟨matchValue p m⟩) := by
  induction ps₁ with
  | nil => simp [extractGo, hm]
  | cons q qs ih =>
    have hq : searchL q text = none := h1 q (List.mem_cons_self q qs)
    simp only [List.cons_append]
    unfold extractGo
    rw [hq]
    exact ih fun r hr => h1 r (List.mem_cons_of_mem q hr)

/-! ## Claim theorems -/

/-- C3: for every canonical record, `validate_required_fields` reports as
missing exactly those of the three required fields that are blank after
trimming, in the fixed order business name, owner first name, consultation
date; `is_valid` holds iff `missing_fields` is empty (warnings play no
role in validity). -/
theorem c3_missing_fields_exact (r : CanonicalRecord) :
    (validate_required_fields r).missing_fields =
      (if isBlankS r.business_name then ["business_name"] else []) ++
      (if isBlankS r.business_owner_first_name then ["business_owner_first_name"] else []) ++
      (if isBlankS r.consultation_date then ["consultation_date"] else []) ∧
    ((validate_required_fields r).is_valid = true ↔
      (validate_required_fields r).missing_fields = []) := by
  have e1 : requiredFieldGet r "business_name" = r.business_name := rfl
  have e2 : requiredFieldGet r "business_owner_first_name" = r.business_owner_first_name := rfl
  have e3 : requiredFieldGet r "consultation_date" = r.consultation_date := rfl
  cases h1 : isBlankS r.business_name <;> cases h2 : isBlankS r.business_owner_first_name <;>
    cases h3 : isBlankS r.consultation_date <;>
      simp [validate_required_fields, List.filter, e1, e2, e3, h1, h2, h3]

/-- C4: the validator mutates at most the consultation length: when that
field is blank it is set to `"1"` with the single defaulting warning, every
other field unchanged; when it is non-blank the returned record is the
input record and there are no warnings. -/
theorem c4_validator_frame (r : CanonicalRecord) :
    (isBlankS r.consultation_length = true →
      (validate_required_fields r).data = { r with consultation_length := "1" } ∧
      (validate_required_fields r).warnings = ["Used default consultation length: 1 hour"]) ∧
    (isBlankS r.consultation_length = false →
      (validate_required_fields r).data = r ∧ (validate_required_fields r).warnings = []) := by
  constructor <;> intro h <;> simp [validate_required_fields, h]

/-- C4 witness: a concrete record with blank consultation length. -/
theorem c4_validator_frame_witness :
    isBlankS c4SampleRec.consultation_length = true ∧
    (validate_required_fields c4SampleRec).data = { c4SampleRec with consultation_length := "1" } ∧
    (validate_required_fields c4SampleRec).warnings = ["Used default consultation length: 1 hour"] :=
  ⟨rfl, ((c4_validator_frame c4SampleRec).1 rfl).1, ((c4_validator_frame c4SampleRec).1 rfl).2⟩

/-- C5: the record mapper is total over the schema — on empty extracted
fields every schema key gets its documented default (name-split fields both
empty) — and for a present non-empty contact name, the first name is the
first whitespace-delimited token and the last name is the remaining tokens
joined by single spaces. -/
theorem c5_mapper_totality_and_name_split :
    (map_to_smartsheet_format emptyEF =
      { delegate_agency := "Puerto Rican Cultural Center (PRCC)"
        vendor_id := "1055031"
        program := "Place-based Business Specialist"
        submitted_by := "wesleyo@prcc-chgo.org"
        reporting_month := "August"
        business_name := ""
        business_owner_first_name := ""
        business_owner_last_name := ""
        business_owner_email := ""
        business_street_address := ""
        city := "Chicago"
        state := "IL"
        zip_code := ""
        consultation_date := ""
        consultation_length := "1"
        consultation_language := "English"
        business_stage := "Growth Phase"
        business_structure := "Limited Liability Company"
        business_presence := "Brick & Mortar"
        years_in_business := "2 to 5 years"
        employee_count := "2 employees"
        race := "Prefer not to answer"
        ethnicity := "Prefer not to answer"
        gender := "Prefer not to answer"
        is_veteran := "No"
        is_disabled := "No"
        service_areas := ["Business Planning & Strategy"]
        business_summary := ""
        referral_source := "Economic Development Nonprofit" }) ∧
    (∀ (pd : ExtractedFields) (s : String), pd.contact_name = some s → ¬ s = "" →
      (map_to_smartsheet_format pd).business_owner_first_name = (pySplit s).headD "" ∧
      (map_to_smartsheet_format pd).business_owner_last_name = joinSpace (pySplit s).tail) := by
  constructor
  · rfl
  · intro pd s hc hs
    unfold map_to_smartsheet_format
    rw [hc]
    simp only [Option.getD_some, if_neg hs]
    constructor
    · cases pySplit s <;> rfl
    · rcases hp : pySplit s with - | ⟨x, t⟩
      · rfl
      · rcases t with - | ⟨y, t2⟩
        · rfl
        · simp [joinSpace]

/-- C5 witness: a concrete two-token-tail contact name splits as claimed. -/
theorem c5_mapper_witness :
    (map_to_smartsheet_format c5SampleEF).business_owner_first_name = "Jane" ∧
    (map_to_smartsheet_format c5SampleEF).business_owner_last_name = "Q Public" := by
  have h := c5_mapper_totality_and_name_split.2 c5SampleEF "Jane Q Public" rfl (by decide)
  exact ⟨h.1, h.2⟩

/-- C6: for every text and registered choice group, the returned selections
are a sublist of the registered option list (hence a subset, in registered
order, independent of appearance order in the text), and an option is
selected exactly when a mark glyph occurs immediately before or after its
text (whitespace permitted between, per the constructed pattern). -/
theorem c6_checkbox_subset_ordered (text field : String) (cfg : ChoiceConfig)
    (h : choice_patterns field = some cfg) :
    (extract_checkbox_selections text field).Sublist cfg.options ∧
    (∀ o, o ∈ extract_checkbox_selections text field ↔
      o ∈ cfg.options ∧ markedAdjacent text o = true) := by
  unfold extract_checkbox_selections
  rw [h]
  exact ⟨List.filter_sublist _, fun o => by simp [List.mem_filter]⟩

/-- C6 witness: the business-stage group on the spec's §8 mark scenario. -/
theorem c6_checkbox_witness :
    (extract_checkbox_selections "Business Stage: X Growth Phase" "business_stage").Sublist
      businessStageCfg.options ∧
    ("Growth Phase" ∈ extract_checkbox_selections "Business Stage: X Growth Phase" "business_stage" ↔
      "Growth Phase" ∈ businessStageCfg.options ∧
        markedAdjacent "Business Stage: X Growth Phase" "Growth Phase" = true) := by
  have h := c6_checkbox_subset_ordered "Business Stage: X Growth Phase" "business_stage"
    businessStageCfg rfl
  exact ⟨h.1, h.2 "Growth Phase"⟩

/-- C7: `extract_field_value` tries the field's patterns in declaration
order: if every pattern fails the result is `none` (absence, no exception —
the function is total); the first pattern that matches determines the
result, which is the normalized group-1 value when the pattern has groups,
else the normalized whole span. -/
theorem c7_first_pattern_wins (text field : String) :
    (extract_field_value text field = none ↔
      ∀ p ∈ field_patterns field, searchL p text.data = none) ∧
    (∀ ps₁ p ps₂, field_patterns field = ps₁ ++ p :: ps₂ →
      (∀ q ∈ ps₁, searchL q text.data = none) →
      ∀ m, searchL p text.data = some m →
        extract_field_value text field = some (clean_text ⟨matchValue p m⟩)) := by
  constructor
  · exact extractGo_none_iff text.data (field_patterns field)
  · intro ps₁ p ps₂ hsplit h1 m hm
    unfold extract_field_value
    rw [hsplit]
    exact extractGo_first text.data ps₁ p ps₂ h1 m hm

/-- C7 witness: the first zip pattern matches `"Zip: 60622"`, so its
(normalized) group value is returned. -/
theorem c7_first_pattern_wins_witness :
    extract_field_value "Zip: 60622" "zip" = some (clean_text "60622") := by
  have h := (c7_first_pattern_wins "Zip: 60622" "zip").2 [] zipP1 [zipP2, zipP3] rfl
    (by simp) ("Zip: 60622".data, some ("60622".data)) rfl
  exact h

/-- C8: `parse_form` always returns one of the two structured shapes and
never propagates an exception: OCR failure yields the fixed failure value
with empty parsed data; otherwise the result is either the caught-exception
failure shape (error prefixed `Parsing failed: `, empty parsed data) or the
success shape carrying the extracted fields, their mapped record and the
passed-through confidence. -/
theorem c8_structured_results (ocr : OcrResult) :
    (ocr.success = false →
      parse_form ocr = .err "OCR processing failed" emptyEF) ∧
    (ocr.success = true →
      (∃ e, parse_form ocr = .err ("Parsing failed: " ++ e) emptyEF) ∨
      (∃ pd, parse_form ocr =
        .ok pd (map_to_smartsheet_format pd) (ocr.confidence.getD 0))) := by
  constructor
  · intro h
    simp [parse_form, h]
  · intro h
    simp only [parse_form, h, if_true]
    cases hn : extract_consultation_notes (ocr.raw_text.getD "") with
    | error e => exact Or.inl ⟨e, rfl⟩
    | ok notes => exact Or.inr ⟨_, rfl⟩

/-- C8 witness: an OCR failure is converted to the structured failure. -/
theorem c8_structured_results_witness :
    parse_form { success := false, raw_text := none, confidence := none } =
      .err "OCR processing failed" emptyEF :=
  (c8_structured_results { success := false, raw_text := none, confidence := none }).1 rfl

/-- C10: `clean_text` leaves no `0` (rewritten `O`) and no `|` (rewritten
`I`) in its output, hence no scalar value returned by `extract_field_value`
(any field, zip and phone included) or `extract_consultation_notes`
contains either character. -/
theorem c10_no_zero_no_pipe :
    (∀ s : String, '0' ∉ (clean_text s).data ∧ '|' ∉ (clean_text s).data) ∧
    (∀ text field v, extract_field_value text field = some v →
      '0' ∉ v.data ∧ '|' ∉ v.data) ∧
    (∀ text v, extract_consultation_notes text = .ok v → ¬ v = "" →
      '0' ∉ v.data ∧ '|' ∉ v.data) := by
  refine ⟨clean_text_no_zero_no_pipe, ?_, ?_⟩
  · intro text field v h
    rcases extractGo_some_clean text.data (field_patterns field) v h with ⟨w, rfl⟩
    exact clean_text_no_zero_no_pipe w
  · intro text v h hne
    rcases notesGo_ok_clean text.data notes_patterns v h with rfl | ⟨w, rfl⟩
    · exact absurd rfl hne
    · exact clean_text_no_zero_no_pipe w

/-- C10 witness: the cleaned zip value of `"Zip: 60622"`. -/
theorem c10_no_zero_no_pipe_witness :
    '0' ∉ ("6O622" : String).data ∧ '|' ∉ ("6O622" : String).data :=
  c10_no_zero_no_pipe.2.1 "Zip: 60622" "zip" "6O622" rfl

/-! ### Digit-character lemmas for the date normalizer -/

theorem digitChar_isDigit {a : Nat} (h : a < 10) : isDigitC (digitChar a) = true := by
  interval_cases a <;> decide

theorem digitVal_digitChar {a : Nat} (h : a < 10) : digitVal (digitChar a) = a := by
  interval_cases a <;> decide

theorem digitChar_not_ws {a : Nat} (h : a < 10) : isPyWs (digitChar a) = false := by
  interval_cases a <;> decide

theorem parseNum12_pad2 (maxv n : Nat) (h1 : 1 ≤ n) (h2 : n ≤ maxv) (h99 : n ≤ 99)
    (rest : List Char) : parseNum12 maxv (pad2 n ++ rest) = some (n, rest) := by
  have ha : n / 10 % 10 < 10 := Nat.mod_lt _ (by norm_num)
  have hb : n % 10 < 10 := Nat.mod_lt _ (by norm_num)
  have hv : digitVal (digitChar (n / 10 % 10)) * 10 + digitVal (digitChar (n % 10)) = n := by
    rw [digitVal_digitChar ha, digitVal_digitChar hb]
    omega
  simp only [pad2, List.cons_append, List.nil_append, parseNum12]
  rw [hv, digitChar_isDigit ha, digitChar_isDigit hb]
  simp [h1, h2]

theorem parseYear4_pad4 {y : Nat} (h : y ≤ 9999) : parseYear4 (pad4 y) = some (y, []) := by
  have h1 : y / 1000 % 10 < 10 := Nat.mod_lt _ (by norm_num)
  have h2 : y / 100 % 10 < 10 := Nat.mod_lt _ (by norm_num)
  have h3 : y / 10 % 10 < 10 := Nat.mod_lt _ (by norm_num)
  have h4 : y % 10 < 10 := Nat.mod_lt _ (by norm_num)
  simp only [pad4, parseYear4]
  rw [digitChar_isDigit h1, digitChar_isDigit h2, digitChar_isDigit h3, digitChar_isDigit h4,
    digitVal_digitChar h1, digitVal_digitChar h2, digitVal_digitChar h3, digitVal_digitChar h4]
  simp only [Bool.and_self, if_true, Option.some.injEq, Prod.mk.injEq, and_true]
  omega

theorem daysInMonth_le_31 (y m : Nat) : daysInMonth y m ≤ 31 := by
  unfold daysInMonth
  split_ifs <;> omega

theorem tryFormat_canonical {y m d : Nat} (hm1 : 1 ≤ m) (hm2 : m ≤ 12) (hd1 : 1 ≤ d)
    (hd2 : d ≤ daysInMonth y m) (hy1 : 1000 ≤ y) (hy2 : y ≤ 9999) :
    tryFormat ⟨true, '/', true⟩ (pad2 m ++ '/' :: (pad2 d ++ '/' :: pad4 y)) = some ⟨y, m, d⟩ := by
  have e1 := parseNum12_pad2 12 m hm1 hm2 (by omega) ('/' :: (pad2 d ++ '/' :: pad4 y))
  have hd31 : d ≤ 31 := le_trans hd2 (daysInMonth_le_31 y m)
  have e2 := parseNum12_pad2 31 d hd1 hd31 (by omega) ('/' :: pad4 y)
  have e3 := parseYear4_pad4 hy2
  have e4 : dateValid y m d = true := by
    unfold dateValid
    simp only [Bool.and_eq_true, decide_eq_true_eq]
    omega
  simp [tryFormat, e1, e2, e3, e4]

theorem formatMDY_data (dt : Date) :
    (formatMDY dt).data = pad2 dt.month ++ '/' :: (pad2 dt.day ++ '/' :: pad4 dt.year) := rfl

theorem formatMDY_not_ws (dt : Date) : ∀ c ∈ (formatMDY dt).data, isPyWs c = false := by
  intro c hc
  rw [formatMDY_data] at hc
  simp only [pad2, pad4, List.cons_append, List.nil_append] at hc
  fin_cases hc <;>
    first
      | exact digitChar_not_ws (Nat.mod_lt _ (by norm_num))
      | decide

theorem dropWhile_eq_self_of_not (p : Char → Bool) (l : List Char)
    (h : ∀ c ∈ l, p c = false) : l.dropWhile p = l := by
  cases l with
  | nil => rfl
  | cons c t =>
    rw [List.dropWhile_cons, h c (List.mem_cons_self c t)]
    simp

theorem pyStripL_eq_self (l : List Char) (h : ∀ c ∈ l, isPyWs c = false) : pyStripL l = l := by
  unfold pyStripL
  rw [dropWhile_eq_self_of_not _ _ h, dropWhile_eq_self_of_not, List.reverse_reverse]
  intro c hc
  exact h c (List.mem_reverse.mp hc)

/-- C9: `parse_date` is idempotent on its canonical `MM/DD/YYYY` output
(every validly formatted four-digit-year date string it can produce parses
back, under the first format, to the identical string), and any input no
listed format parses is returned as the trimmed original, never a failure. -/
theorem c9_parse_date_idempotent (y m d : Nat) (hm1 : 1 ≤ m) (hm2 : m ≤ 12) (hd1 : 1 ≤ d)
    (hd2 : d ≤ daysInMonth y m) (hy1 : 1000 ≤ y) (hy2 : y ≤ 9999) :
    parse_date (formatMDY ⟨y, m, d⟩) = formatMDY ⟨y, m, d⟩ ∧
    ∀ s : String, firstFmtParse (pyStripL s.data) = none → parse_date s = pyStrip s := by
  constructor
  · have hne : ¬ (formatMDY ⟨y, m, d⟩).data = [] := by
      rw [formatMDY_data]
      simp [pad2]
    have hstrip : pyStripL (formatMDY ⟨y, m, d⟩).data = (formatMDY ⟨y, m, d⟩).data :=
      pyStripL_eq_self _ (formatMDY_not_ws _)
    have hfind : firstFmtParse (formatMDY ⟨y, m, d⟩).data = some ⟨y, m, d⟩ := by
      rw [formatMDY_data]
      unfold firstFmtParse date_formats
      rw [List.findSome?_cons, tryFormat_canonical hm1 hm2 hd1 hd2 hy1 hy2]
    unfold parse_date
    rw [if_neg hne, hstrip, hfind]
  · intro s h
    unfold parse_date
    by_cases hd : s.data = []
    · rw [if_pos hd]
      unfold pyStrip
      rw [hd]
      rfl
    · rw [if_neg hd, h]
      rfl

/-- C9 witness: a concrete canonical date is a fixed point, and a concrete
unparseable string comes back trimmed but otherwise unchanged. -/
theorem c9_parse_date_idempotent_witness :
    parse_date (formatMDY ⟨2025, 7, 8⟩) = formatMDY ⟨2025, 7, 8⟩ ∧
    parse_date "not a date" = pyStrip "not a date" := by
  have h := c9_parse_date_idempotent 2025 7 8 (by decide) (by decide) (by decide) (by decide)
    (by decide) (by decide)
  exact ⟨h.1, h.2 "not a date" (by decide)⟩

/-- C1 counterexample: on the spec's §8 scenario text the pipeline does not
produce `zip_code = "60622"`, `consultation_date = "07/08/2025"` and
`is_valid = true` — the `0`→`O` rewrite corrupts both numeric values and the
absent contact name leaves the required owner first name blank. -/
theorem c1_scenario_counterexample :
    c1Record.map (fun sm => (sm.zip_code, sm.consultation_date,
      (validate_required_fields sm).is_valid)) ≠ some ("60622", "07/08/2025", true) := by
  decide

/-- C1 (amended): parsing the scenario text succeeds and yields
`business_name = "Acme Co"`, `zip_code = "6O622"`,
`consultation_date = "O7/O8/2O25"` (both with the `0`→`O` substitution
applied, the date therefore failing to normalize), demographic fields at
their fallback defaults, and validation returns `is_valid = false` with
exactly the owner first name missing. -/
theorem c1_scenario_actual :
    c1Record.map (fun sm => (sm.business_name, sm.zip_code, sm.consultation_date,
      sm.race, sm.ethnicity, sm.gender, sm.is_veteran, sm.is_disabled,
      (validate_required_fields sm).is_valid, (validate_required_fields sm).missing_fields)) =
    some ("Acme Co", "6O622", "O7/O8/2O25", "Prefer not to answer", "Prefer not to answer",
      "Prefer not to answer", "No", "No", false, ["business_owner_first_name"]) := by
  rfl

/-- C2: evaluation at the failing inputs — `extract_field_value` runs the
zip and phone values through `clean_text` like any other field, so the zip
digits suffer `0`→`O` and the phone value suffers `|`→`I`. -/
theorem c2_substitution_on_numeric_fields :
    extract_field_value "Zip: 60622" "zip" = some "6O622" ∧
    extract_field_value "Phone: 555|1234" "phone" = some "555I1234" :=
  ⟨rfl, rfl⟩

end FormParser


